import Mathlib

/-!
Shallow embedding of the SGD coordination layer of CNTK
(src/Source/SGDLib/SGD.h and src/Source/SGDLib/IDistGradAggregator.h).

Modelling conventions:
* C++ `double` values are modelled as `ℚ` where only field arithmetic
  (division, comparison) occurs, and as `ℝ` where a real power is taken
  (`pow(x, 1/n)` in `GetMomentumPerSample`).
* `RuntimeError(...)` is modelled as `Except.error RtErr.runtimeError`;
  a function that can raise returns `Except RtErr α`.
* `size_t` is modelled as `Nat`.  The `int` field
  `m_parallelizationStartEpochNum` is modelled as `Nat` (the configuration
  layer only produces non-negative start epochs).
* `MPIWrapperPtr` (a shared pointer that is null when MPI is not
  initialised) is modelled as `Option MPIWrapper`.
-/

set_option autoImplicit false
set_option linter.unusedVariables false

namespace CNTKSGD

/-- Error raised by `RuntimeError(...)` in the C++ source; the message text
is not modelled. -/
inductive RtErr where
  | runtimeError
  deriving DecidableEq

/-- Model of the CNTK `argvector`/`intargvector` schedule arrays
(`fileutil.h`/`Config.h`, not part of src). Modelled from the spec:
ordered-by-epoch arrays that are non-empty, and index-out-of-range
resolves to the last element, never an error. -/
structure argvector (α : Type) where
  head : α
  tail : List α
  deriving DecidableEq

/-- Indexing with clamp-to-last-element semantics, per the spec's
Training Schedule invariant. -/
def argvector.get {α : Type} (v : argvector α) (i : Nat) : α :=
  (v.head :: v.tail).getD i (v.tail.getLastD v.head)

/-- Stand-in for the MPI wrapper object behind `MPIWrapperPtr`; only
nullness of the pointer matters to the embedded code. -/
structure MPIWrapper where
  numNodesInUse : Nat
  deriving DecidableEq

/-- Enum `ParallelizationMethod` from SGD.h (underlying int values
none = 0, dataParallelSGD = 1, modelAveragingSGD = 2,
blockMomentumSGD = 3, dataParallelASGD = 4, modelParallelSGD = 256
are never inspected numerically by the embedded code). -/
inductive ParallelizationMethod where
  | none
  | dataParallelSGD
  | modelAveragingSGD
  | blockMomentumSGD
  | dataParallelASGD
  | modelParallelSGD
  deriving DecidableEq

/-- Struct `RMSPropInfo` from SGD.h: configuration parameters of the
RmsProp learning algorithm, with the defaults set by its default
constructor. -/
structure RMSPropInfo where
  gamma : ℚ := 0.99
  inc : ℚ := 1.2
  dec : ℚ := 0.75
  max : ℚ := 10.0
  min : ℚ := 0.1
  deriving DecidableEq

/-- A default-constructed `RMSPropInfo` (the C++ `RMSPropInfo()`
constructor). -/
def rmsPropInfoDefault : RMSPropInfo := {}

/-- The fields of `SGDParams` (SGD.h) used by the schedule conversion
helpers and the parallel-training predicates.  The many remaining
configuration fields of the struct do not influence the embedded
functions and are omitted. -/
structure SGDParams where
  m_learningRatesParam : argvector ℚ
  m_learningRatesSpecifiedForMBSize : argvector Nat
  m_momentumParam : argvector ℚ
  m_momentumSpecifiedForMBSize : argvector Nat
  m_truncated : Bool
  m_mpi : Option MPIWrapper
  m_parallelizationMethod : ParallelizationMethod
  m_parallelizationStartEpochNum : Nat
  m_rpi : RMSPropInfo

/-- `SGDParams::FixUpEffectiveMBSize` (SGD.h lines 175-191): remedies the
truncation bug by multiplying the specified MB size by the number of
parallel sequences when `m_truncated && specifiedMBSize > 1`, raising
`RuntimeError` when the number of parallel sequences is 0 in that case. -/
def FixUpEffectiveMBSize (s : SGDParams) (specifiedMBSize numParallelSequences : Nat) :
    Except RtErr Nat :=
  if s.m_truncated = true ∧ 1 < specifiedMBSize then
    if numParallelSequences = 0 then
      Except.error RtErr.runtimeError
    else
      Except.ok (specifiedMBSize * numParallelSequences)
  else
    Except.ok specifiedMBSize

/-- `SGDParams::GetLearningRatePerSample` (SGD.h lines 195-198):
`m_learningRatesParam[epoch] / FixUpEffectiveMBSize(m_learningRatesSpecifiedForMBSize[epoch], numParallelSequences)`. -/
def GetLearningRatePerSample (s : SGDParams) (epoch numParallelSequences : Nat) :
    Except RtErr ℚ :=
  (FixUpEffectiveMBSize s (s.m_learningRatesSpecifiedForMBSize.get epoch) numParallelSequences).map
    (fun (mbSize : Nat) => s.m_learningRatesParam.get epoch / (mbSize : ℚ))

/-- `SGDParams::GetMomentumPerSample` (SGD.h lines 199-202):
`pow(m_momentumParam[epoch], 1.0 / FixUpEffectiveMBSize(m_momentumSpecifiedForMBSize[epoch], numParallelSequences))`. -/
noncomputable def GetMomentumPerSample (s : SGDParams) (epoch numParallelSequences : Nat) :
    Except RtErr ℝ :=
  (FixUpEffectiveMBSize s (s.m_momentumSpecifiedForMBSize.get epoch) numParallelSequences).map
    (fun (mbSize : Nat) => Real.rpow ((s.m_momentumParam.get epoch : ℚ) : ℝ) (1 / (mbSize : ℝ)))

/-- `SGDParams::GetParallelizationMethod` (SGD.h lines 204-210): returns
`none` when the MPI wrapper pointer is null, the configured method
otherwise. -/
def GetParallelizationMethod (s : SGDParams) : ParallelizationMethod :=
  match s.m_mpi with
  | Option.none => ParallelizationMethod.none
  | Option.some _ => s.m_parallelizationMethod

/-- `SGD::InitMPI` (SGD.h lines 418-424): stores the wrapper pointer and
forces `m_parallelizationMethod` to `none` when it is null. -/
def InitMPI (s : SGDParams) (mpi : Option MPIWrapper) : SGDParams :=
  match mpi with
  | Option.none => { s with m_mpi := Option.none, m_parallelizationMethod := ParallelizationMethod.none }
  | Option.some w => { s with m_mpi := Option.some w }

/-- `SGD::UsingGradientAggregation` (SGD.h lines 666-669). -/
def UsingGradientAggregation (s : SGDParams) (epochNumber : Nat) : Bool :=
  decide (GetParallelizationMethod s = ParallelizationMethod.dataParallelSGD) &&
    decide (s.m_parallelizationStartEpochNum ≤ epochNumber)

/-- `SGD::UsingModelAggregation` (SGD.h lines 671-676). -/
def UsingModelAggregation (s : SGDParams) (epochNumber : Nat) : Bool :=
  (decide (GetParallelizationMethod s = ParallelizationMethod.modelAveragingSGD) ||
    decide (GetParallelizationMethod s = ParallelizationMethod.blockMomentumSGD)) &&
    decide (s.m_parallelizationStartEpochNum ≤ epochNumber)

/-- `SGD::UsingAsyncGradientAggregation` (SGD.h lines 678-681). -/
def UsingAsyncGradientAggregation (s : SGDParams) (epochNumber : Nat) : Bool :=
  decide (GetParallelizationMethod s = ParallelizationMethod.dataParallelASGD) &&
    decide (s.m_parallelizationStartEpochNum ≤ epochNumber)

/-- `SGD::UsingParallelTrain` (SGD.h lines 683-686). -/
def UsingParallelTrain (s : SGDParams) (epochNumber : Nat) : Bool :=
  UsingGradientAggregation s epochNumber || UsingModelAggregation s epochNumber ||
    UsingAsyncGradientAggregation s epochNumber

/-- Device-id view of a `Matrix<T>` shared pointer held by a
`GradientPackage` (IDistGradAggregator.h); only `GetDeviceId()` is ever
called on these matrices in the embedded code. -/
structure CNTKMatrix where
  deviceId : Int
  deriving DecidableEq

/-- Struct `GradientPackage` (IDistGradAggregator.h lines 11-26):
per-minibatch gradient buffers grouped by numeric precision. -/
structure GradientPackage where
  m_gradFloat : List CNTKMatrix
  m_gradHalf : List CNTKMatrix
  m_gradDouble : List CNTKMatrix

/-- `GradientPackage::IsEmpty` (IDistGradAggregator.h line 17). -/
def GradientPackage.IsEmpty (g : GradientPackage) : Bool :=
  g.m_gradFloat.isEmpty && g.m_gradHalf.isEmpty && g.m_gradDouble.isEmpty

/-- `GradientPackage::DeviceId` (IDistGradAggregator.h lines 18-25):
device id of the first matrix, checking float, then half, then double;
`RuntimeError` when the package is empty. -/
def GradientPackage.DeviceId (g : GradientPackage) : Except RtErr Int :=
  match g.m_gradFloat with
  | m :: _ => Except.ok m.deviceId
  | [] =>
    match g.m_gradHalf with
    | m :: _ => Except.ok m.deviceId
    | [] =>
      match g.m_gradDouble with
      | m :: _ => Except.ok m.deviceId
      | [] => Except.error RtErr.runtimeError

/-- Checkpoint format version macros (SGD.h lines 27-29). -/
def CNTK_CHECKPOINT_VERSION_1 : Nat := 1

/-- Version 2, the current checkpoint layout (SGD.h line 28). -/
def CNTK_CHECKPOINT_VERSION_2 : Nat := 2

/-- `CURRENT_CNTK_CHECKPOINT_VERSION` macro (SGD.h line 29). -/
def CURRENT_CNTK_CHECKPOINT_VERSION : Nat := CNTK_CHECKPOINT_VERSION_2

/-- On-disk checkpoint record: a single leading integer version followed
by the resumable state.  The payload fields mirror the out-parameters of
`TryLoadCheckPointInfo` (SGD.h lines 605-611); the smoothed-gradient
matrices are abstracted to their scalar companions. -/
structure CheckpointFile where
  version : Nat
  totalSamplesSeen : Nat
  learnRatePerSample : ℚ
  smoothedCounts : List ℚ
  prevCriterion : ℚ
  minibatchSize : Nat
  deriving DecidableEq

/-- Resumable state produced by a successful checkpoint load (the
out-parameters of `TryLoadCheckPointInfo`, SGD.h lines 605-611). -/
structure ResumeState where
  totalSamplesSeen : Nat
  learnRatePerSample : ℚ
  smoothedCounts : List ℚ
  prevCriterion : ℚ
  minibatchSize : Nat
  deriving DecidableEq

/-- Modelled from the spec: the body of `LoadCheckPointInfo` is not in
src (SGD.h only declares it, lines 612-618).  Per the spec, loaders
reject a checkpoint whose leading version integer is not one of the two
known layouts (version 1, the unnumbered legacy layout, and version 2,
the current one) rather than attempting to parse it. -/
def LoadCheckPointInfo (f : CheckpointFile) : Except RtErr ResumeState :=
  if f.version = CNTK_CHECKPOINT_VERSION_1 ∨ f.version = CNTK_CHECKPOINT_VERSION_2 then
    Except.ok
      { totalSamplesSeen := f.totalSamplesSeen
        learnRatePerSample := f.learnRatePerSample
        smoothedCounts := f.smoothedCounts
        prevCriterion := f.prevCriterion
        minibatchSize := f.minibatchSize }
  else
    Except.error RtErr.runtimeError

/-- Modelled from the spec: the body of `TryLoadCheckPointInfo` is not in
src (SGD.h only declares it, lines 605-611).  A missing checkpoint file
(`Option.none`) yields a cold start (`Except.ok Option.none`, the C++
`return false`), not an error; an existing file is loaded through
`LoadCheckPointInfo`, whose version check can fail fatally. -/
def TryLoadCheckPointInfo (file : Option CheckpointFile) :
    Except RtErr (Option ResumeState) :=
  match file with
  | Option.none => Except.ok Option.none
  | Option.some f => (LoadCheckPointInfo f).map Option.some

/-- Downward scan for the highest epoch strictly below the bound whose
checkpoint test succeeds. -/
def scanHighestEpoch (hasCheckpoint : Nat → Bool) : Nat → Int
  | 0 => -1
  | e + 1 => if hasCheckpoint e then (e : Int) else scanHighestEpoch hasCheckpoint e

/-- Modelled from the spec: the body of `DetermineStartEpoch` is not in
src (SGD.h only declares it, lines 588-589, with the comment
"return -1 if nothing exists").  Per the spec it scans for the highest
epoch with a valid checkpoint and returns it, or -1 if none exists;
checkpoint existence is abstracted as the predicate `hasCheckpoint`, the
scan is bounded by the configured number of epochs, and the spec does not
constrain the `makeMode` flag. -/
def DetermineStartEpoch (makeMode : Bool) (maxEpochs : Nat)
    (hasCheckpoint : Nat → Bool) : Int :=
  scanHighestEpoch hasCheckpoint maxEpochs

instance {ε α : Type} [DecidableEq ε] [DecidableEq α] : DecidableEq (Except ε α) := fun a b =>
  match a, b with
  | Except.ok x, Except.ok y =>
    match decEq x y with
    | isTrue h => isTrue (congrArg Except.ok h)
    | isFalse h => isFalse (fun hh => h (Except.ok.inj hh))
  | Except.ok _, Except.error _ => isFalse (fun hh => Except.noConfusion hh)
  | Except.error _, Except.ok _ => isFalse (fun hh => Except.noConfusion hh)
  | Except.error x, Except.error y =>
    match decEq x y with
    | isTrue h => isTrue (congrArg Except.error h)
    | isFalse h => isFalse (fun hh => h (Except.error.inj hh))

/-- Mapping a function over an `Except` value preserves exactly the error
outcomes. -/
theorem except_map_eq_error {α β : Type} (f : α → β) (x : Except RtErr α) :
    x.map f = Except.error RtErr.runtimeError ↔ x = Except.error RtErr.runtimeError := by
  cases x <;> simp [Except.map]

/-- Characterization of the error outcome of `FixUpEffectiveMBSize`. -/
theorem fixUp_error_core (s : SGDParams) (m n : Nat) :
    FixUpEffectiveMBSize s m n = Except.error RtErr.runtimeError ↔
      s.m_truncated = true ∧ 1 < m ∧ n = 0 := by
  unfold FixUpEffectiveMBSize
  split_ifs with h1 h2
  · simp [h1.1, h1.2, h2]
  · simp [h2]
  · refine iff_of_false (by simp) ?_
    rintro ⟨ha, hb, _⟩
    exact h1 ⟨ha, hb⟩

/-- A concrete configuration: truncation enabled, learning rate and
momentum specified per sample (specified MB size 1). -/
def sTruncPerSample : SGDParams where
  m_learningRatesParam := ⟨1, []⟩
  m_learningRatesSpecifiedForMBSize := ⟨1, []⟩
  m_momentumParam := ⟨9 / 10, []⟩
  m_momentumSpecifiedForMBSize := ⟨1, []⟩
  m_truncated := true
  m_mpi := Option.none
  m_parallelizationMethod := ParallelizationMethod.none
  m_parallelizationStartEpochNum := 0
  m_rpi := {}

/-- A concrete configuration: truncation enabled, learning rate and
momentum specified per minibatch (specified MB size 4). -/
def sTruncPerMB : SGDParams where
  m_learningRatesParam := ⟨3, []⟩
  m_learningRatesSpecifiedForMBSize := ⟨4, []⟩
  m_momentumParam := ⟨9 / 10, []⟩
  m_momentumSpecifiedForMBSize := ⟨4, []⟩
  m_truncated := true
  m_mpi := Option.none
  m_parallelizationMethod := ParallelizationMethod.none
  m_parallelizationStartEpochNum := 0
  m_rpi := {}

/-- C1 counterexample: with truncation enabled but the learning rate
specified per sample (specified MB size 1), the fix-up does NOT multiply
by the number of parallel sequences — `GetLearningRatePerSample` returns
the rate divided by 1, not by 1 * numParallelSequences, refuting the
claim's clause that the fix-up multiplies by numParallelSequences
whenever truncation is enabled. -/
theorem getLearningRatePerSample_fixup_cex :
    sTruncPerSample.m_truncated = true ∧
    GetLearningRatePerSample sTruncPerSample 0 2 ≠
      Except.ok (sTruncPerSample.m_learningRatesParam.get 0 /
        ((sTruncPerSample.m_learningRatesSpecifiedForMBSize.get 0 * 2 : Nat) : ℚ)) := by
  refine ⟨rfl, ?_⟩
  intro h
  simp only [GetLearningRatePerSample, FixUpEffectiveMBSize, sTruncPerSample, argvector.get,
    List.getD, List.getLastD, Except.map] at h
  norm_num at h

/-- C1 (amended): `GetLearningRatePerSample(e, n)` equals
`m_learningRatesParam[e]` divided by
`FixUpEffectiveMBSize(m_learningRatesSpecifiedForMBSize[e], n)` with
errors propagated; the fix-up multiplies the specified minibatch size by
`numParallelSequences` when truncation is enabled AND the specified
minibatch size exceeds 1 AND `numParallelSequences` is nonzero, and
leaves the specified size unchanged when truncation is disabled. -/
theorem getLearningRatePerSample_fixup (s : SGDParams) (e n : Nat) :
    GetLearningRatePerSample s e n =
      (FixUpEffectiveMBSize s (s.m_learningRatesSpecifiedForMBSize.get e) n).map
        (fun (mbSize : Nat) => s.m_learningRatesParam.get e / (mbSize : ℚ))
    ∧ (s.m_truncated = true → 1 < s.m_learningRatesSpecifiedForMBSize.get e → n ≠ 0 →
        GetLearningRatePerSample s e n =
          Except.ok (s.m_learningRatesParam.get e /
            ((s.m_learningRatesSpecifiedForMBSize.get e * n : Nat) : ℚ)))
    ∧ (s.m_truncated = false →
        GetLearningRatePerSample s e n =
          Except.ok (s.m_learningRatesParam.get e /
            ((s.m_learningRatesSpecifiedForMBSize.get e : Nat) : ℚ))) := by
  refine ⟨rfl, ?_, ?_⟩
  · intro h1 h2 h3
    unfold GetLearningRatePerSample FixUpEffectiveMBSize
    rw [if_pos ⟨h1, h2⟩, if_neg h3]
    rfl
  · intro h1
    unfold GetLearningRatePerSample FixUpEffectiveMBSize
    rw [if_neg (by simp [h1])]
    rfl

/-- C1 witness: in the truncated, per-minibatch configuration the rate is
divided by the specified size times the parallel-sequence count. -/
theorem getLearningRatePerSample_fixup_witness :
    GetLearningRatePerSample sTruncPerMB 0 2 =
      Except.ok (sTruncPerMB.m_learningRatesParam.get 0 /
        ((sTruncPerMB.m_learningRatesSpecifiedForMBSize.get 0 * 2 : Nat) : ℚ)) :=
  (getLearningRatePerSample_fixup sTruncPerMB 0 2).2.1 rfl (by decide) (by decide)

/-- C2: `FixUpEffectiveMBSize` — and hence `GetLearningRatePerSample` and
`GetMomentumPerSample` — raises the fatal runtime error exactly when
truncation is enabled, the rate is specified per minibatch (specified MB
size above 1), and the number of parallel sequences is zero; for all
other inputs it returns normally. -/
theorem fixUpEffectiveMBSize_error_iff (s : SGDParams) (m n e : Nat) :
    (FixUpEffectiveMBSize s m n = Except.error RtErr.runtimeError ↔
      s.m_truncated = true ∧ 1 < m ∧ n = 0)
    ∧ (GetLearningRatePerSample s e n = Except.error RtErr.runtimeError ↔
      s.m_truncated = true ∧ 1 < s.m_learningRatesSpecifiedForMBSize.get e ∧ n = 0)
    ∧ (GetMomentumPerSample s e n = Except.error RtErr.runtimeError ↔
      s.m_truncated = true ∧ 1 < s.m_momentumSpecifiedForMBSize.get e ∧ n = 0) := by
  refine ⟨fixUp_error_core s m n, ?_, ?_⟩
  · unfold GetLearningRatePerSample
    rw [except_map_eq_error]
    exact fixUp_error_core s _ n
  · unfold GetMomentumPerSample
    rw [except_map_eq_error]
    exact fixUp_error_core s _ n

/-- C4: synchronous gradient aggregation, model aggregation, and
asynchronous gradient aggregation are pairwise mutually exclusive for
every epoch of a run. -/
theorem parallel_modes_mutually_exclusive (s : SGDParams) (e : Nat) :
    (UsingGradientAggregation s e && UsingModelAggregation s e) = false
    ∧ (UsingGradientAggregation s e && UsingAsyncGradientAggregation s e) = false
    ∧ (UsingModelAggregation s e && UsingAsyncGradientAggregation s e) = false := by
  unfold UsingGradientAggregation UsingModelAggregation UsingAsyncGradientAggregation
  cases hGP : GetParallelizationMethod s <;> simp [hGP]

/-- C7: a default-constructed `RMSPropInfo` holds the documented RmsProp
defaults: gamma 0.99, increase factor 1.2, decrease factor 0.75, maximum
scale 10.0, minimum scale 0.1. -/
theorem rmsPropInfoDefault_values :
    rmsPropInfoDefault.gamma = 0.99 ∧ rmsPropInfoDefault.inc = 1.2 ∧
    rmsPropInfoDefault.dec = 0.75 ∧ rmsPropInfoDefault.max = 10.0 ∧
    rmsPropInfoDefault.min = 0.1 :=
  ⟨rfl, rfl, rfl, rfl, rfl⟩

/-- A concrete configuration with a live MPI wrapper, data-parallel SGD,
and parallelization starting at epoch 2. -/
def sParallel : SGDParams where
  m_learningRatesParam := ⟨1, []⟩
  m_learningRatesSpecifiedForMBSize := ⟨1, []⟩
  m_momentumParam := ⟨9 / 10, []⟩
  m_momentumSpecifiedForMBSize := ⟨1, []⟩
  m_truncated := false
  m_mpi := Option.some ⟨2⟩
  m_parallelizationMethod := ParallelizationMethod.dataParallelSGD
  m_parallelizationStartEpochNum := 2
  m_rpi := {}

/-- A concrete configuration with data-parallel SGD configured but a null
MPI wrapper pointer. -/
def sNoMPI : SGDParams where
  m_learningRatesParam := ⟨1, []⟩
  m_learningRatesSpecifiedForMBSize := ⟨1, []⟩
  m_momentumParam := ⟨9 / 10, []⟩
  m_momentumSpecifiedForMBSize := ⟨1, []⟩
  m_truncated := false
  m_mpi := Option.none
  m_parallelizationMethod := ParallelizationMethod.dataParallelSGD
  m_parallelizationStartEpochNum := 0
  m_rpi := {}

/-- C3: before the start-epoch threshold every parallel-training
predicate is false, and at or above the threshold (with MPI initialised,
so the effective method is the configured one) each predicate holds
exactly when the configured `ParallelizationMethod` matches it. -/
theorem parallel_threshold_gating (s : SGDParams) (e : Nat) :
    (e < s.m_parallelizationStartEpochNum →
      UsingGradientAggregation s e = false ∧ UsingModelAggregation s e = false ∧
      UsingAsyncGradientAggregation s e = false ∧ UsingParallelTrain s e = false)
    ∧ (s.m_mpi ≠ Option.none → s.m_parallelizationStartEpochNum ≤ e →
      ((UsingGradientAggregation s e = true ↔
          s.m_parallelizationMethod = ParallelizationMethod.dataParallelSGD)
        ∧ (UsingModelAggregation s e = true ↔
          (s.m_parallelizationMethod = ParallelizationMethod.modelAveragingSGD ∨
           s.m_parallelizationMethod = ParallelizationMethod.blockMomentumSGD))
        ∧ (UsingAsyncGradientAggregation s e = true ↔
          s.m_parallelizationMethod = ParallelizationMethod.dataParallelASGD)
        ∧ (UsingParallelTrain s e = true ↔
          (s.m_parallelizationMethod = ParallelizationMethod.dataParallelSGD ∨
           s.m_parallelizationMethod = ParallelizationMethod.modelAveragingSGD ∨
           s.m_parallelizationMethod = ParallelizationMethod.blockMomentumSGD ∨
           s.m_parallelizationMethod = ParallelizationMethod.dataParallelASGD)))) := by
  constructor
  · intro hlt
    have hn : ¬ s.m_parallelizationStartEpochNum ≤ e := Nat.not_le.mpr hlt
    unfold UsingParallelTrain UsingGradientAggregation UsingModelAggregation
      UsingAsyncGradientAggregation
    simp [hn]
  · intro hmpi hle
    have hgp : GetParallelizationMethod s = s.m_parallelizationMethod := by
      unfold GetParallelizationMethod
      cases hm : s.m_mpi
      · exact absurd hm hmpi
      · rfl
    unfold UsingParallelTrain UsingGradientAggregation UsingModelAggregation
      UsingAsyncGradientAggregation
    refine ⟨?_, ?_, ?_, ?_⟩ <;> simp [hgp, hle] <;> tauto

/-- C3 witness: with data-parallel SGD configured, MPI live, and start
epoch 2, gradient aggregation is off at epoch 1 and on at epoch 3. -/
theorem parallel_threshold_gating_witness :
    UsingGradientAggregation sParallel 1 = false ∧
    UsingGradientAggregation sParallel 3 = true := by
  constructor
  · exact ((parallel_threshold_gating sParallel 1).1 (by decide)).1
  · exact (((parallel_threshold_gating sParallel 3).2 (by decide) (by decide)).1).mpr rfl

/-- C5: `DetermineStartEpoch` either returns -1 with no epoch below the
bound having a valid checkpoint, or returns the highest epoch below the
bound that has one. -/
theorem determineStartEpoch_highest (makeMode : Bool) (maxEpochs : Nat)
    (hasCheckpoint : Nat → Bool) :
    (DetermineStartEpoch makeMode maxEpochs hasCheckpoint = -1 ∧
      ∀ e, e < maxEpochs → hasCheckpoint e = false)
    ∨ (∃ e, e < maxEpochs ∧ hasCheckpoint e = true ∧
        DetermineStartEpoch makeMode maxEpochs hasCheckpoint = (e : Int) ∧
        ∀ e2, e2 < maxEpochs → hasCheckpoint e2 = true → e2 ≤ e) := by
  unfold DetermineStartEpoch
  induction maxEpochs with
  | zero =>
    left
    exact ⟨rfl, fun e he => absurd he (Nat.not_lt_zero e)⟩
  | succ m ih =>
    by_cases hm : hasCheckpoint m = true
    · right
      refine ⟨m, Nat.lt_succ_self m, hm, ?_, fun e2 he2 _ => Nat.lt_succ_iff.mp he2⟩
      rw [scanHighestEpoch, if_pos hm]
    · have hmf : hasCheckpoint m = false := by
        cases hb : hasCheckpoint m
        · rfl
        · exact absurd hb hm
      rcases ih with ⟨hneg, hall⟩ | ⟨e, he, hhe, hval, hmax⟩
      · left
        constructor
        · rw [scanHighestEpoch, if_neg (by simp [hmf])]
          exact hneg
        · intro e he
          rcases Nat.lt_succ_iff_lt_or_eq.mp he with h | h
          · exact hall e h
          · rw [h]
            exact hmf
      · right
        refine ⟨e, Nat.lt_succ_of_lt he, hhe, ?_, ?_⟩
        · rw [scanHighestEpoch, if_neg (by simp [hmf])]
          exact hval
        · intro e2 he2 hh2
          rcases Nat.lt_succ_iff_lt_or_eq.mp he2 with h | h
          · exact hmax e2 h hh2
          · rw [h] at hh2
            exact absurd hh2 (by simp [hmf])

/-- A checkpoint file carrying an unknown format version. -/
def badCheckpoint : CheckpointFile where
  version := 7
  totalSamplesSeen := 0
  learnRatePerSample := 0
  smoothedCounts := []
  prevCriterion := 0
  minibatchSize := 0

/-- C6: the checkpoint format has a single leading integer version with
two known layouts (1, the unnumbered legacy layout, and 2, the current
one); loading rejects any other version, and a missing checkpoint is a
cold start, not an error. -/
theorem checkpoint_version_gating :
    (CNTK_CHECKPOINT_VERSION_1 = 1 ∧ CNTK_CHECKPOINT_VERSION_2 = 2 ∧
      CURRENT_CNTK_CHECKPOINT_VERSION = 2 ∧
      CNTK_CHECKPOINT_VERSION_1 ≠ CNTK_CHECKPOINT_VERSION_2)
    ∧ (∀ f : CheckpointFile, f.version ≠ CNTK_CHECKPOINT_VERSION_1 →
        f.version ≠ CNTK_CHECKPOINT_VERSION_2 →
        TryLoadCheckPointInfo (Option.some f) = Except.error RtErr.runtimeError)
    ∧ TryLoadCheckPointInfo Option.none = Except.ok Option.none := by
  refine ⟨⟨rfl, rfl, rfl, by decide⟩, ?_, rfl⟩
  intro f h1 h2
  have hv : ¬(f.version = CNTK_CHECKPOINT_VERSION_1 ∨ f.version = CNTK_CHECKPOINT_VERSION_2) := by
    rintro (h | h)
    · exact h1 h
    · exact h2 h
  simp [TryLoadCheckPointInfo, LoadCheckPointInfo, hv, Except.map]

/-- C6 witness: a checkpoint with version 7 is rejected. -/
theorem checkpoint_version_gating_witness :
    TryLoadCheckPointInfo (Option.some badCheckpoint) = Except.error RtErr.runtimeError :=
  checkpoint_version_gating.2.1 badCheckpoint (by decide) (by decide)

/-- C8: a null MPI wrapper pointer forces the effective parallelization
method to `none` (both in `GetParallelizationMethod` and after
`InitMPI`), so every parallel-training predicate is false at every
epoch. -/
theorem mpi_null_forces_none (s : SGDParams) (e : Nat) :
    (s.m_mpi = Option.none → GetParallelizationMethod s = ParallelizationMethod.none)
    ∧ (InitMPI s Option.none).m_parallelizationMethod = ParallelizationMethod.none
    ∧ (InitMPI s Option.none).m_mpi = Option.none
    ∧ (s.m_mpi = Option.none →
        UsingGradientAggregation s e = false ∧ UsingModelAggregation s e = false ∧
        UsingAsyncGradientAggregation s e = false ∧ UsingParallelTrain s e = false) := by
  refine ⟨?_, rfl, rfl, ?_⟩
  · intro h
    unfold GetParallelizationMethod
    rw [h]
  · intro h
    have hgp : GetParallelizationMethod s = ParallelizationMethod.none := by
      unfold GetParallelizationMethod
      rw [h]
    unfold UsingParallelTrain UsingGradientAggregation UsingModelAggregation
      UsingAsyncGradientAggregation
    simp [hgp]

/-- C8 witness: with data-parallel SGD configured but no MPI, the
effective method is `none` and parallel training is off. -/
theorem mpi_null_forces_none_witness :
    GetParallelizationMethod sNoMPI = ParallelizationMethod.none ∧
    UsingParallelTrain sNoMPI 5 = false := by
  constructor
  · exact (mpi_null_forces_none sNoMPI 5).1 rfl
  · exact ((mpi_null_forces_none sNoMPI 5).2.2.2 rfl).2.2.2

/-- C9: whenever the fix-up returns a size without error,
`GetMomentumPerSample` is the per-minibatch momentum raised to the power
1 / effectiveMBSize (the effective-minibatch-size-th root), not a
division. -/
theorem getMomentumPerSample_is_root (s : SGDParams) (e n mb : Nat)
    (h : FixUpEffectiveMBSize s (s.m_momentumSpecifiedForMBSize.get e) n = Except.ok mb) :
    GetMomentumPerSample s e n =
      Except.ok (Real.rpow ((s.m_momentumParam.get e : ℚ) : ℝ) (1 / (mb : ℝ))) := by
  unfold GetMomentumPerSample
  rw [h]
  rfl

/-- C9 witness: truncated run with momentum specified per minibatch
size 4 and 2 parallel sequences, so the effective size is 8. -/
theorem getMomentumPerSample_is_root_witness :
    FixUpEffectiveMBSize sTruncPerMB (sTruncPerMB.m_momentumSpecifiedForMBSize.get 0) 2 =
        Except.ok 8 ∧
    GetMomentumPerSample sTruncPerMB 0 2 =
      Except.ok (Real.rpow ((sTruncPerMB.m_momentumParam.get 0 : ℚ) : ℝ) (1 / ((8 : Nat) : ℝ))) :=
  ⟨by decide, getMomentumPerSample_is_root sTruncPerMB 0 2 8 (by decide)⟩

/-- A gradient package whose only matrix is a half-precision matrix on
device 3. -/
def halfOnlyPackage : GradientPackage where
  m_gradFloat := []
  m_gradHalf := [⟨3⟩]
  m_gradDouble := []

/-- C10: `GradientPackage::DeviceId` errors exactly on an empty package,
and otherwise returns the device id of the first matrix, checking the
float vector first, then half, then double. -/
theorem gradientPackage_deviceId (g : GradientPackage) :
    (g.DeviceId = Except.error RtErr.runtimeError ↔ g.IsEmpty = true)
    ∧ (∀ m t, g.m_gradFloat = m :: t → g.DeviceId = Except.ok m.deviceId)
    ∧ (g.m_gradFloat = [] → ∀ m t, g.m_gradHalf = m :: t →
        g.DeviceId = Except.ok m.deviceId)
    ∧ (g.m_gradFloat = [] → g.m_gradHalf = [] → ∀ m t, g.m_gradDouble = m :: t →
        g.DeviceId = Except.ok m.deviceId) := by
  obtain ⟨gf, gh, gd⟩ := g
  refine ⟨?_, ?_, ?_, ?_⟩
  · cases gf <;> cases gh <;> cases gd <;>
      simp [GradientPackage.DeviceId, GradientPackage.IsEmpty]
  · rintro m t rfl
    rfl
  · rintro rfl m t rfl
    rfl
  · rintro rfl rfl m t rfl
    rfl

/-- C10 witness: float vector empty, half vector holding a matrix on
device 3 — the device id is 3. -/
theorem gradientPackage_deviceId_witness :
    halfOnlyPackage.DeviceId = Except.ok (3 : Int) :=
  (gradientPackage_deviceId halfOnlyPackage).2.2.1 rfl ⟨3⟩ [] rfl

end CNTKSGD
